import Mathlib

/-!
Verification of the extraction-governance layer of `tap-salesforce`
(`tap_salesforce/salesforce/__init__.py`): the schema mapper
(`field_to_property_schema`), the quota governor
(`check_rest_quota_usage`), the retrying transport (`_make_request` with
its `backoff` decorator and `raise_for_status`), the query builder
(`_build_query_string`), and the blacklist policy
(`get_blacklisted_objects` / `get_blacklisted_fields`).

Python dicts are embedded as association lists (insertion-ordered, as
CPython dicts are), JSON values as an inductive `Json`, machine floats as
exact rationals (every numeric value appearing in the verified claims is
exactly representable, and all comparisons are far from rounding
boundaries), and raised exceptions as the `Except` monad with the error
type `TapErr`.
-/

/-- A JSON value as built by the schema mapper: the code only ever stores
strings, arrays, and nested objects in a property schema. -/
inductive Json where
  | str : String → Json
  | arr : List Json → Json
  | obj : List (String × Json) → Json

/-- Python `d[k] = v` on an insertion-ordered dict embedded as an
association list: replaces the value in place if the key exists,
otherwise appends the new pair at the end. -/
def assocSet {α β : Type} [DecidableEq α] : List (α × β) → α → β → List (α × β)
  | [], k, v => [(k, v)]
  | (k', v') :: rest, k, v =>
      if k' = k then (k, v) :: rest else (k', v') :: assocSet rest k v

/-- The compiled singer metadata map restricted to what this file needs:
entries keyed by (breadcrumb part 1, breadcrumb part 2, metadata key),
holding a string value.  `metadata.write` is an in-place keyed update. -/
abbrev Mdata := List ((String × String × String) × String)

/-- `singer.metadata.write(compiled, (bc1, bc2), k, v)`. -/
def metadata_write (mdata : Mdata) (bc : String × String) (k v : String) : Mdata :=
  assocSet mdata (bc.1, bc.2, k) v

/-- Exceptions raised by the embedded code. -/
inductive TapErr where
  | connectionError
  | customNotAcceptable
  | httpError (status : Nat)
  | unsupportedType (tag : String)
  | quotaExceededTotal
  | quotaExceededPerRun
  | typeError
  | zeroDivision
  | keyError
  | configError (api_type : Option String)
deriving Repr, DecidableEq

/-- `STRING_TYPES` from the source (a Python set; membership only). -/
def STRING_TYPES : List String :=
  ["id", "string", "picklist", "textarea", "phone", "url", "reference",
   "multipicklist", "combobox", "encryptedstring", "email", "complexvalue",
   "masterrecord", "datacategorygroupreference", "base64"]

/-- `NUMBER_TYPES` from the source. -/
def NUMBER_TYPES : List String := ["double", "currency", "percent"]

/-- `DATE_TYPES` from the source. -/
def DATE_TYPES : List String := ["datetime", "date"]

/-- `BINARY_TYPES` from the source. -/
def BINARY_TYPES : List String := ["byte"]

/-- `LOOSE_TYPES` from the source. -/
def LOOSE_TYPES : List String := ["anyType", "calculated"]

/-- A remote field descriptor: `field["name"]` and `field["type"]`
(`Field` itself is taken by Mathlib's algebraic class). -/
structure SfField where
  name : String
  type : String
deriving Repr, DecidableEq

/-- The `date_type` dict literal in the `DATE_TYPES` branch. -/
def date_type_json : Json :=
  .obj [("type", .str "string"), ("format", .str "date-time")]

/-- The `string_type` dict literal in the `DATE_TYPES` branch. -/
def string_type_json : Json :=
  .obj [("type", .arr [.str "string", .str "null"])]

/-- The `address` branch property schema: `type` set first, then
`properties`, exactly in source order. -/
def address_schema : List (String × Json) :=
  [("type", .str "object"),
   ("properties", .obj
     [("street", .obj [("type", .arr [.str "null", .str "string"])]),
      ("state", .obj [("type", .arr [.str "null", .str "string"])]),
      ("postalCode", .obj [("type", .arr [.str "null", .str "string"])]),
      ("city", .obj [("type", .arr [.str "null", .str "string"])]),
      ("country", .obj [("type", .arr [.str "null", .str "string"])]),
      ("longitude", .obj [("type", .arr [.str "null", .str "number"])]),
      ("latitude", .obj [("type", .arr [.str "null", .str "number"])]),
      ("geocodeAccuracy", .obj [("type", .arr [.str "null", .str "string"])])])]

/-- The `location` branch property schema. -/
def location_schema : List (String × Json) :=
  [("type", .arr [.str "number", .str "object", .str "null"]),
   ("properties", .obj
     [("longitude", .obj [("type", .arr [.str "null", .str "number"])]),
      ("latitude", .obj [("type", .arr [.str "null", .str "number"])])])]

/-- The `if`/`elif` chain of `field_to_property_schema`, in source order.
The result's boolean is `true` for the two branches that `return` from
inside the chain (`LOOSE_TYPES` and `BINARY_TYPES`), bypassing the final
null wrap; `false` for branches that fall through to it. -/
def schema_branch (field_name sf_type : String) (mdata : Mdata) :
    Except TapErr (List (String × Json) × Mdata × Bool) :=
  if sf_type ∈ STRING_TYPES then
    .ok ([("type", .str "string")], mdata, false)
  else if sf_type ∈ DATE_TYPES then
    .ok ([("anyOf", .arr [date_type_json, string_type_json])], mdata, false)
  else if sf_type = "boolean" then
    .ok ([("type", .str "boolean")], mdata, false)
  else if sf_type ∈ NUMBER_TYPES then
    .ok ([("type", .str "number")], mdata, false)
  else if sf_type = "address" then
    .ok (address_schema, mdata, false)
  else if sf_type = "int" ∨ sf_type = "long" then
    .ok ([("type", .str "integer")], mdata, false)
  else if sf_type = "time" then
    .ok ([("type", .str "string")], mdata, false)
  else if sf_type ∈ LOOSE_TYPES then
    .ok ([], mdata, true)
  else if sf_type ∈ BINARY_TYPES then
    .ok ([], metadata_write
            (metadata_write mdata ("properties", field_name) "inclusion" "unsupported")
            ("properties", field_name) "unsupported-description" "binary data", true)
  else if sf_type = "location" then
    .ok (location_schema, mdata, false)
  else if sf_type = "json" then
    .ok ([("type", .str "string")], mdata, false)
  else
    .error (.unsupportedType sf_type)

/-- The null wrap after the chain:
`if field_name != "Id" and sf_type != "location" and sf_type not in DATE_TYPES:
property_schema["type"] = ["null", property_schema["type"]]`.
Reading a missing `"type"` key would be a Python `KeyError` (never reached
by any branch that falls through to this line). -/
def apply_null_wrap (field_name sf_type : String)
    (property_schema : List (String × Json)) : Except TapErr (List (String × Json)) :=
  if field_name ≠ "Id" ∧ sf_type ≠ "location" ∧ sf_type ∉ DATE_TYPES then
    match property_schema.lookup "type" with
    | some t => .ok (assocSet property_schema "type" (.arr [.str "null", t]))
    | none => .error .keyError
  else
    .ok property_schema

/-- `field_to_property_schema(field, mdata)` from the source: the branch
chain, then (unless the branch returned early) the null wrap, returning
the property schema together with the possibly-updated metadata. -/
def field_to_property_schema (field : SfField) (mdata : Mdata) :
    Except TapErr (List (String × Json) × Mdata) :=
  match schema_branch field.name field.type mdata with
  | .error e => .error e
  | .ok (ps, m, true) => .ok (ps, m)
  | .ok (ps, m, false) =>
      match apply_null_wrap field.name field.type ps with
      | .error e => .error e
      | .ok ps2 => .ok (ps2, m)

/-- The fields of a `Salesforce` client instance used by the governance
layer (quota percents are Python floats, embedded as exact rationals;
both relevant defaults and all claim inputs are exactly representable). -/
structure Salesforce where
  quota_percent_per_run : ℚ
  quota_percent_total : ℚ
  rest_requests_attempted : ℕ
  select_fields_by_default : Bool
  api_type : Option String
deriving Repr, DecidableEq

/-- Python `int()` applied to a (non-negative or negative) numeric value:
truncation toward zero; on an exact rational this is `num.tdiv den`. -/
def pyInt (q : ℚ) : ℤ := q.num.tdiv (q.den : ℤ)

/-- `max_requests_for_run = int((self.quota_percent_per_run * allotted) / 100)`
(computed from the current response's allotted value). -/
def max_requests_for_run (qppr : ℚ) (allotted : ℕ) : ℤ :=
  pyInt ((qppr * (allotted : ℚ)) / 100)

/-- Matching a literal character sequence at the head of the input,
returning the remainder on success. -/
def dropLit : List Char → List Char → Option (List Char)
  | [], cs => some cs
  | _ :: _, [] => none
  | p :: ps, c :: cs => if c = p then dropLit ps cs else none

/-- Decimal digit sequence to a natural number. -/
def digitsToNat (cs : List Char) : ℕ :=
  cs.foldl (fun acc c => acc * 10 + (c.toNat - 48)) 0

/-- `re.search(r"^api-usage=(\d+)/(\d+)$", value)`: anchored at both ends,
with Python's `$` also matching just before one final newline; on a match
the two groups are parsed as integers (`map(int, match.groups())`). -/
def parse_api_usage (v : String) : Option (ℕ × ℕ) :=
  let cs := v.data
  let cs := match cs.getLast? with
    | some c => if c = '\n' then cs.dropLast else cs
    | none => cs
  match dropLit "api-usage=".data cs with
  | none => none
  | some rest =>
      match rest.splitOn '/' with
      | [a, b] =>
          if a ≠ [] ∧ b ≠ [] ∧ a.all Char.isDigit ∧ b.all Char.isDigit then
            some (digitsToNat a, digitsToNat b)
          else none
      | _ => none

/-- `Salesforce.check_rest_quota_usage(self, headers)`.
`headers.get(...)` on an absent key yields `None`, and `re.search`
applied to `None` raises a `TypeError`; a present but non-matching value
makes the whole check a no-op.  The parsed groups are bound to
`remaining` and `allotted` (the first is in fact the used count); the
division `remaining / allotted` raises `ZeroDivisionError` when
`allotted` is zero.  The total check runs first; the per-run check
compares the already-incremented request counter against
`max_requests_for_run`. -/
def check_rest_quota_usage (s : Salesforce) (headers : List (String × String)) :
    Except TapErr Unit :=
  match headers.lookup "Sforce-Limit-Info" with
  | none => .error .typeError
  | some v =>
      match parse_api_usage v with
      | none => .ok ()
      | some (remaining, allotted) =>
          if allotted = 0 then .error .zeroDivision
          else
            let percent_used_from_total : ℚ := ((remaining : ℚ) / (allotted : ℚ)) * 100
            if percent_used_from_total > s.quota_percent_total then
              .error .quotaExceededTotal
            else if (s.rest_requests_attempted : ℤ) >
                max_requests_for_run s.quota_percent_per_run allotted then
              .error .quotaExceededPerRun
            else .ok ()

/-- A client with the configuration defaults (`quota_percent_per_run=25`,
`quota_percent_total=80`) and a fresh request counter. -/
def sfDefault : Salesforce :=
  { quota_percent_per_run := 25
    quota_percent_total := 80
    rest_requests_attempted := 0
    select_fields_by_default := false
    api_type := none }

/-- Substring test on character lists (Python's `needle in haystack`). -/
def listHasPre : List Char → List Char → Bool
  | [], _ => true
  | _ :: _, [] => false
  | a :: as, b :: bs => a = b && listHasPre as bs

/-- Python's `needle in haystack` on strings. -/
def strContainsSub (hay needle : String) : Bool :=
  go needle.data hay.data
where
  go (needle : List Char) : List Char → Bool
    | [] => listHasPre needle []
    | c :: rest => listHasPre needle (c :: rest) || go needle rest

/-- `raise_for_status(resp)` from the source: a 406 whose reason phrase
contains `"CustomNotAcceptable"` raises `SFDCCustomNotAcceptableError`;
otherwise `requests.Response.raise_for_status` runs, which (per the
`requests` library it delegates to) raises `HTTPError` exactly for
status codes in 400–599 and returns normally for every other status.
The warning log for any non-200 status carries no control flow. -/
def raise_for_status (status : Nat) (reason : String) : Except TapErr Unit :=
  if status = 406 ∧ strContainsSub reason "CustomNotAcceptable" = true then
    .error .customNotAcceptable
  else if 400 ≤ status ∧ status < 600 then
    .error (.httpError status)
  else
    .ok ()

/-- An HTTP response as the transport model sees it. -/
structure Response where
  status : Nat
  reason : String
  headers : List (String × String)
deriving Repr, DecidableEq

/-- What the environment does on one attempt of `_make_request`: either
the session call raises `requests.exceptions.ConnectionError`, or it
returns a response. -/
inductive AttemptOutcome where
  | connError
  | response (status : Nat) (reason : String) (headers : List (String × String))
deriving Repr, DecidableEq

/-- One un-retried execution of the `_make_request` body: perform the
session call, run `raise_for_status`, and if the response carries a
`Sforce-Limit-Info` header, increment `rest_requests_attempted` and only
then run the quota check (so the triggering request itself is counted). -/
def make_request_once (s : Salesforce) (o : AttemptOutcome) :
    Except TapErr (Salesforce × Response) :=
  match o with
  | .connError => .error .connectionError
  | .response status reason headers =>
      match raise_for_status status reason with
      | .error e => .error e
      | .ok () =>
          if (headers.lookup "Sforce-Limit-Info").isSome then
            let s2 := { s with rest_requests_attempted := s.rest_requests_attempted + 1 }
            match check_rest_quota_usage s2 headers with
            | .error e => .error e
            | .ok () => .ok (s2, ⟨status, reason, headers⟩)
          else .ok (s, ⟨status, reason, headers⟩)

/-- The exception tuple of the `backoff.on_exception` decorator:
`(requests.exceptions.ConnectionError, SFDCCustomNotAcceptableError)`. -/
def is_retryable : TapErr → Bool
  | .connectionError => true
  | .customNotAcceptable => true
  | _ => false

/-- The `backoff` retry loop with `max_tries` as fuel: run one attempt;
on a retryable exception retry while tries remain, re-raising the last
error once the cap is reached; any other exception propagates at once.
`attempt` indexes into the environment script `env`. -/
def backoff_run (env : ℕ → AttemptOutcome) (s : Salesforce) :
    ℕ → ℕ → Except TapErr (Salesforce × Response)
  | _, 0 => .error .connectionError
  | attempt, t + 1 =>
      match make_request_once s (env attempt) with
      | .ok r => .ok r
      | .error e =>
          if is_retryable e then
            match t with
            | 0 => .error e
            | t' + 1 => backoff_run env s (attempt + 1) (t' + 1)
          else .error e

/-- `_make_request` under its `@backoff.on_exception(..., max_tries=10)`
decorator: up to 10 attempts, numbered from 1. -/
def make_request (s : Salesforce) (env : ℕ → AttemptOutcome) :
    Except TapErr (Salesforce × Response) :=
  backoff_run env s 1 10

/-- Per-property metadata as the query builder reads it:
`metadata.get(mdata, ("properties", k), "inclusion")` and `... "selected"`. -/
structure PropMeta where
  inclusion : Option String
  selected : Option Bool
deriving Repr, DecidableEq

/-- A catalog entry as the query builder reads it: the stream name, the
schema's property names (in insertion order) with their metadata, and the
`replication-key` entry of the stream-level metadata (`None` when
absent). -/
structure CatalogEntry where
  stream : String
  properties : List (String × PropMeta)
  replication_key : Option String
deriving Repr, DecidableEq

/-- Modelled from the spec: `singer.should_sync_field` (external `singer`
library, not in src/): unsupported fields are always excluded; otherwise
an explicit selection flag wins, falling back to the default-selection
policy when unset. -/
def should_sync_field (inclusion : Option String) (selected : Option Bool)
    (select_fields_by_default : Bool) : Bool :=
  if inclusion = some "unsupported" then false
  else match selected with
    | some b => b
    | none => select_fields_by_default

/-- `Salesforce._get_selected_properties`: the schema's property names,
in order, filtered through `should_sync_field`. -/
def get_selected_properties (s : Salesforce) (catalog_entry : CatalogEntry) :
    List String :=
  (catalog_entry.properties.filter
    (fun p => should_sync_field p.2.inclusion p.2.selected s.select_fields_by_default)).map
    (fun p => p.1)

/-- `Salesforce._build_query_string(catalog_entry, start_date, end_date=None,
order_by_clause=True)`.  Python truthiness: a `None` or empty replication
key yields the bare query; an empty end date string behaves like `None`.
Note the trailing space inside `where_clause` and the leading space of
`order_by`. -/
def build_query_string (s : Salesforce) (catalog_entry : CatalogEntry)
    (start_date : String) (end_date : Option String) (order_by_clause : Bool) :
    String :=
  let selected_properties := get_selected_properties s catalog_entry
  let query := "SELECT " ++ String.intercalate "," selected_properties ++
    " FROM " ++ catalog_entry.stream
  match catalog_entry.replication_key with
  | none => query
  | some replication_key =>
      if replication_key = "" then query
      else
        let where_clause := " WHERE " ++ replication_key ++ " >= " ++ start_date ++ " "
        let end_date_clause := match end_date with
          | some ed => if ed = "" then "" else " AND " ++ replication_key ++ " < " ++ ed
          | none => ""
        let order_by := " ORDER BY " ++ replication_key ++ " ASC"
        if order_by_clause then query ++ where_clause ++ end_date_clause ++ order_by
        else query ++ where_clause ++ end_date_clause

/-- A two-field catalog entry with an explicit selection on each field
and `SystemModstamp` as replication key. -/
def ceExample : CatalogEntry :=
  { stream := "Account"
    properties := [("Id", ⟨none, some true⟩), ("SystemModstamp", ⟨none, some true⟩)]
    replication_key := some "SystemModstamp" }

/-- `BULK_API_TYPE` from the source. -/
def BULK_API_TYPE : String := "BULK"

/-- `BULK2_API_TYPE` from the source. -/
def BULK2_API_TYPE : String := "BULK2"

/-- `REST_API_TYPE` from the source. -/
def REST_API_TYPE : String := "REST"

/-- `UNSUPPORTED_BULK_API_SALESFORCE_OBJECTS` from the source (a Python
set literal; membership only). -/
def UNSUPPORTED_BULK_API_SALESFORCE_OBJECTS : List String :=
  ["AssetTokenEvent", "AttachedContentNote", "EventWhoRelation",
   "QuoteTemplateRichTextData", "TaskWhoRelation", "SolutionStatus",
   "ContractStatus", "RecentlyViewed", "DeclinedEventRelation",
   "AcceptedEventRelation", "TaskStatus", "PartnerRole", "TaskPriority",
   "CaseStatus", "UndecidedEventRelation", "OrderStatus"]

/-- `QUERY_RESTRICTED_SALESFORCE_OBJECTS` from the source. -/
def QUERY_RESTRICTED_SALESFORCE_OBJECTS : List String :=
  ["Announcement", "CollaborationGroupRecord", "Vote", "IdeaComment",
   "FieldDefinition", "PlatformAction", "UserEntityAccess",
   "RelationshipInfo", "ContentFolderMember", "ContentFolderItem",
   "SearchLayout", "SiteDetail", "EntityParticle", "OwnerChangeOptionInfo",
   "DataStatistics", "UserFieldAccess", "PicklistValueInfo",
   "RelationshipDomain", "FlexQueueItem", "NetworkUserHistoryRecent",
   "FieldHistoryArchive", "RecordActionHistory", "FlowVersionView",
   "FlowVariableView", "AppTabMember", "ColorDefinition", "IconDefinition"]

/-- `QUERY_INCOMPATIBLE_SALESFORCE_OBJECTS` from the source. -/
def QUERY_INCOMPATIBLE_SALESFORCE_OBJECTS : List String :=
  ["DataType", "ListViewChartInstance", "FeedLike", "OutgoingEmail",
   "OutgoingEmailRelation", "FeedSignal", "ActivityHistory", "EmailStatus",
   "UserRecordAccess", "Name", "AggregateResult", "OpenActivity",
   "ProcessInstanceHistory", "OwnedContentDocument",
   "FolderedContentDocument", "FeedTrackedChange", "CombinedAttachment",
   "AttachedContentDocument", "ContentBody", "NoteAndAttachment",
   "LookedUpFromActivity", "AttachedContentNote", "QuoteTemplateRichTextData"]

/-- Python `a.union(b)` on sets embedded as duplicate-free-by-membership
lists: keep `a`, append the members of `b` not already present. -/
def set_union (a b : List String) : List String :=
  a ++ b.filter (fun x => decide (x ∉ a))

/-- `Salesforce.get_blacklisted_objects`. -/
def get_blacklisted_objects (s : Salesforce) : Except TapErr (List String) :=
  if s.api_type = some BULK_API_TYPE ∨ s.api_type = some BULK2_API_TYPE then
    .ok (set_union
          (set_union UNSUPPORTED_BULK_API_SALESFORCE_OBJECTS
            QUERY_RESTRICTED_SALESFORCE_OBJECTS)
          QUERY_INCOMPATIBLE_SALESFORCE_OBJECTS)
  else if s.api_type = some REST_API_TYPE then
    .ok (set_union QUERY_RESTRICTED_SALESFORCE_OBJECTS
          QUERY_INCOMPATIBLE_SALESFORCE_OBJECTS)
  else
    .error (.configError s.api_type)

/-- `Salesforce.get_blacklisted_fields`. -/
def get_blacklisted_fields (s : Salesforce) :
    Except TapErr (List ((String × String) × String)) :=
  if s.api_type = some BULK_API_TYPE ∨ s.api_type = some BULK2_API_TYPE then
    .ok [(("EntityDefinition", "RecordTypesSupported"),
          "this field is unsupported by the Bulk API.")]
  else if s.api_type = some REST_API_TYPE then
    .ok []
  else
    .error (.configError s.api_type)

/-- Disjointness of two object-name sets. -/
def listDisjoint (a b : List String) : Bool :=
  a.all (fun x => !(b.contains x))

/-- Spec §4.3, scalar rows combined with the general nullability rule:
the row's single type tag, wrapped as a union with the null marker unless
the field is the primary key `"Id"`. -/
def spec_scalar_fragment (name b : String) : List (String × Json) :=
  if name = "Id" then [("type", Json.str b)]
  else [("type", Json.arr [.str "null", .str b])]

/-- Spec §4.3, `datetime`/`date` row: the union of `{string,
format=date-time}` and `{string|null}`, always nullable through its
second alternative and never additionally wrapped. -/
def spec_date_fragment : List (String × Json) :=
  [("anyOf", Json.arr
    [.obj [("type", .str "string"), ("format", .str "date-time")],
     .obj [("type", .arr [.str "string", .str "null"])]])]

/-- Spec §4.3, `address` row sub-properties: street, state, postalCode,
city, country (nullable strings), longitude, latitude (nullable numbers),
geocodeAccuracy (nullable string). -/
def spec_address_properties : Json :=
  .obj [("street", .obj [("type", .arr [.str "null", .str "string"])]),
        ("state", .obj [("type", .arr [.str "null", .str "string"])]),
        ("postalCode", .obj [("type", .arr [.str "null", .str "string"])]),
        ("city", .obj [("type", .arr [.str "null", .str "string"])]),
        ("country", .obj [("type", .arr [.str "null", .str "string"])]),
        ("longitude", .obj [("type", .arr [.str "null", .str "number"])]),
        ("latitude", .obj [("type", .arr [.str "null", .str "number"])]),
        ("geocodeAccuracy", .obj [("type", .arr [.str "null", .str "string"])])]

/-- Spec §4.3, `address` row with the general nullability rule applied
to its object type (primary key exempt). -/
def spec_address_fragment (name : String) : List (String × Json) :=
  if name = "Id" then
    [("type", Json.str "object"), ("properties", spec_address_properties)]
  else
    [("type", Json.arr [.str "null", .str "object"]),
     ("properties", spec_address_properties)]

/-- Spec §4.3, `location` row: the union `{number, object, null}` with
longitude/latitude sub-properties; exempt from the general wrap because
its union already includes null. -/
def spec_location_fragment : List (String × Json) :=
  [("type", Json.arr [.str "number", .str "object", .str "null"]),
   ("properties", .obj
     [("longitude", .obj [("type", .arr [.str "null", .str "number"])]),
      ("latitude", .obj [("type", .arr [.str "null", .str "number"])])])]

/-- The set of JSON values a fragment's type constraint admits includes
null: either there is no `"type"` key at all (no constraint — every
value, null included, is accepted), or the type is the `"null"` tag
itself, or a union listing the `"null"` tag. -/
def schema_admits_null (ps : List (String × Json)) : Bool :=
  match ps.lookup "type" with
  | none => true
  | some (.str s) => s == "null"
  | some (.arr ts) => ts.any (fun j => match j with | .str s => s == "null" | _ => false)
  | some _ => false

/-- Some alternative of the fragment's `anyOf` union admits null. -/
def anyOf_admits_null (ps : List (String × Json)) : Bool :=
  match ps.lookup "anyOf" with
  | some (.arr alts) =>
      alts.any (fun j => match j with | .obj o => schema_admits_null o | _ => false)
  | _ => false

example : field_to_property_schema ⟨"Name", "string"⟩ [] =
    .ok ([("type", .arr [.str "null", .str "string"])], []) := rfl

example : field_to_property_schema ⟨"Id", "id"⟩ [] =
    .ok ([("type", .str "string")], []) := rfl

example : field_to_property_schema ⟨"When", "datetime"⟩ [] =
    .ok ([("anyOf", .arr [date_type_json, string_type_json])], []) := rfl

example : field_to_property_schema ⟨"Blob", "base64x"⟩ [] =
    .error (.unsupportedType "base64x") := rfl

example : parse_api_usage "api-usage=150/1000" = some (150, 1000) := by decide

example : parse_api_usage "api-usage=1/2\n" = some (1, 2) := by decide

example : parse_api_usage "api-usage=1/2/3" = none := by decide

example : parse_api_usage "api-usage=x/2" = none := by decide

example : parse_api_usage " api-usage=1/2" = none := by decide

example : check_rest_quota_usage sfDefault
    [("Sforce-Limit-Info", "api-usage=850/1000")] = .error .quotaExceededTotal := by
  have hp : parse_api_usage "api-usage=850/1000" = some (850, 1000) := by decide
  simp only [check_rest_quota_usage, List.lookup_cons_self, hp]
  norm_num [sfDefault, max_requests_for_run, pyInt]

example : check_rest_quota_usage sfDefault
    [("Sforce-Limit-Info", "api-usage=750/1000")] = .ok () := by
  have hp : parse_api_usage "api-usage=750/1000" = some (750, 1000) := by decide
  simp only [check_rest_quota_usage, List.lookup_cons_self, hp]
  norm_num [sfDefault, max_requests_for_run, pyInt]

example : check_rest_quota_usage { sfDefault with rest_requests_attempted := 251 }
    [("Sforce-Limit-Info", "api-usage=100/1000")] = .error .quotaExceededPerRun := by
  have hp : parse_api_usage "api-usage=100/1000" = some (100, 1000) := by decide
  simp only [check_rest_quota_usage, List.lookup_cons_self, hp]
  norm_num [sfDefault, max_requests_for_run, pyInt]

example : max_requests_for_run 25 1000 = 250 := by
  norm_num [max_requests_for_run, pyInt]

example : strContainsSub "406 CustomNotAcceptable variant" "CustomNotAcceptable" = true := by decide

example : strContainsSub "Not Modified" "CustomNotAcceptable" = false := by decide

example : make_request sfDefault (fun _ => .response 200 "OK" []) =
    .ok (sfDefault, ⟨200, "OK", []⟩) := rfl

example : make_request sfDefault (fun _ => .connError) =
    .error .connectionError := rfl

example : make_request sfDefault
      (fun i => if i ≤ 3 then .connError else .response 200 "OK" []) =
    .ok (sfDefault, ⟨200, "OK", []⟩) := rfl

example : make_request sfDefault (fun _ => .response 500 "Server Error" []) =
    .error (.httpError 500) := rfl

example : make_request sfDefault (fun _ => .response 304 "Not Modified" []) =
    .ok (sfDefault, ⟨304, "Not Modified", []⟩) := rfl

example : build_query_string sfDefault ceExample "2024-01-01T00:00:00Z" none true =
    "SELECT Id,SystemModstamp FROM Account WHERE SystemModstamp >= 2024-01-01T00:00:00Z  ORDER BY SystemModstamp ASC" := by
  decide

example : build_query_string sfDefault { ceExample with replication_key := none }
      "2024-01-01T00:00:00Z" none true =
    "SELECT Id,SystemModstamp FROM Account" := by decide

theorem wrap_skip_of_special (name tag : String) (ps : List (String × Json))
    (h : tag = "location" ∨ tag ∈ DATE_TYPES) :
    apply_null_wrap name tag ps = .ok ps := by
  unfold apply_null_wrap
  rw [if_neg]
  rintro ⟨-, h2, h3⟩
  rcases h with h | h
  exacts [h2 h, h3 h]

theorem wrap_skip_of_id (tag : String) (ps : List (String × Json)) :
    apply_null_wrap "Id" tag ps = .ok ps := by
  unfold apply_null_wrap
  rw [if_neg]
  rintro ⟨h1, -, -⟩
  exact h1 rfl

theorem wrap_applies (name tag : String) (t : Json) (ps : List (String × Json))
    (hn : name ≠ "Id") (hl : tag ≠ "location") (hd : tag ∉ DATE_TYPES)
    (ht : ps.lookup "type" = some t) :
    apply_null_wrap name tag ps = .ok (assocSet ps "type" (Json.arr [.str "null", t])) := by
  unfold apply_null_wrap
  rw [if_pos ⟨hn, hl, hd⟩, ht]

theorem mapField_scalar (name tag : String) (m : Mdata) (b : String)
    (hb : schema_branch name tag m = .ok ([("type", Json.str b)], m, false))
    (hl : tag ≠ "location") (hd : tag ∉ DATE_TYPES) :
    field_to_property_schema ⟨name, tag⟩ m = .ok (spec_scalar_fragment name b, m) := by
  by_cases hn : name = "Id"
  · subst hn
    simp [field_to_property_schema, hb, wrap_skip_of_id, spec_scalar_fragment]
  · have hw := wrap_applies name tag (Json.str b) [("type", Json.str b)] hn hl hd rfl
    simp [field_to_property_schema, hb, hw, assocSet, spec_scalar_fragment, hn]

theorem mapField_string_row (name tag : String) (m : Mdata) (h : tag ∈ STRING_TYPES) :
    field_to_property_schema ⟨name, tag⟩ m = .ok (spec_scalar_fragment name "string", m) := by
  simp only [STRING_TYPES] at h
  fin_cases h <;>
    exact mapField_scalar name _ m "string" rfl (by decide) (by decide)

theorem mapField_date_row (name tag : String) (m : Mdata) (h : tag ∈ DATE_TYPES) :
    field_to_property_schema ⟨name, tag⟩ m = .ok (spec_date_fragment, m) := by
  simp only [DATE_TYPES] at h
  fin_cases h
  · have hb : schema_branch name "datetime" m =
        .ok ([("anyOf", Json.arr [date_type_json, string_type_json])], m, false) := rfl
    have hw := wrap_skip_of_special name "datetime"
      [("anyOf", Json.arr [date_type_json, string_type_json])] (Or.inr (by decide))
    simp only [field_to_property_schema, hb, hw]
    rfl
  · have hb : schema_branch name "date" m =
        .ok ([("anyOf", Json.arr [date_type_json, string_type_json])], m, false) := rfl
    have hw := wrap_skip_of_special name "date"
      [("anyOf", Json.arr [date_type_json, string_type_json])] (Or.inr (by decide))
    simp only [field_to_property_schema, hb, hw]
    rfl

theorem mapField_boolean_row (name : String) (m : Mdata) :
    field_to_property_schema ⟨name, "boolean"⟩ m =
      .ok (spec_scalar_fragment name "boolean", m) :=
  mapField_scalar name "boolean" m "boolean" rfl (by decide) (by decide)

theorem mapField_number_row (name tag : String) (m : Mdata) (h : tag ∈ NUMBER_TYPES) :
    field_to_property_schema ⟨name, tag⟩ m = .ok (spec_scalar_fragment name "number", m) := by
  simp only [NUMBER_TYPES] at h
  fin_cases h <;>
    exact mapField_scalar name _ m "number" rfl (by decide) (by decide)

theorem mapField_address_row (name : String) (m : Mdata) :
    field_to_property_schema ⟨name, "address"⟩ m = .ok (spec_address_fragment name, m) := by
  have hb : schema_branch name "address" m = .ok (address_schema, m, false) := rfl
  by_cases hn : name = "Id"
  · subst hn
    simp [field_to_property_schema, hb, wrap_skip_of_id, spec_address_fragment,
      address_schema, spec_address_properties]
  · have hw := wrap_applies name "address" (Json.str "object") address_schema hn
      (by decide) (by decide) rfl
    have ha : assocSet address_schema "type" (Json.arr [.str "null", .str "object"]) =
        [("type", Json.arr [.str "null", .str "object"]),
         ("properties", spec_address_properties)] := rfl
    simp only [field_to_property_schema, hb, hw, ha, spec_address_fragment, if_neg hn]

theorem mapField_int_row (name tag : String) (m : Mdata) (h : tag = "int" ∨ tag = "long") :
    field_to_property_schema ⟨name, tag⟩ m = .ok (spec_scalar_fragment name "integer", m) := by
  rcases h with h | h <;> subst h <;>
    exact mapField_scalar name _ m "integer" rfl (by decide) (by decide)

theorem mapField_time_row (name : String) (m : Mdata) :
    field_to_property_schema ⟨name, "time"⟩ m =
      .ok (spec_scalar_fragment name "string", m) :=
  mapField_scalar name "time" m "string" rfl (by decide) (by decide)

theorem mapField_loose_row (name tag : String) (m : Mdata) (h : tag ∈ LOOSE_TYPES) :
    field_to_property_schema ⟨name, tag⟩ m = .ok ([], m) := by
  simp only [LOOSE_TYPES] at h
  fin_cases h <;> rfl

theorem mapField_binary_row (name tag : String) (m : Mdata) (h : tag ∈ BINARY_TYPES) :
    field_to_property_schema ⟨name, tag⟩ m =
      .ok ([], metadata_write
            (metadata_write m ("properties", name) "inclusion" "unsupported")
            ("properties", name) "unsupported-description" "binary data") := by
  simp only [BINARY_TYPES] at h
  fin_cases h
  rfl

theorem mapField_location_row (name : String) (m : Mdata) :
    field_to_property_schema ⟨name, "location"⟩ m = .ok (spec_location_fragment, m) := by
  have hb : schema_branch name "location" m = .ok (location_schema, m, false) := rfl
  have hw := wrap_skip_of_special name "location" location_schema (Or.inl rfl)
  simp only [field_to_property_schema, hb, hw]
  rfl

theorem mapField_json_row (name : String) (m : Mdata) :
    field_to_property_schema ⟨name, "json"⟩ m =
      .ok (spec_scalar_fragment name "string", m) :=
  mapField_scalar name "json" m "string" rfl (by decide) (by decide)

theorem mapField_unknown (name tag : String) (m : Mdata)
    (h1 : tag ∉ STRING_TYPES) (h2 : tag ∉ DATE_TYPES) (h3 : tag ≠ "boolean")
    (h4 : tag ∉ NUMBER_TYPES) (h5 : tag ≠ "address")
    (h6 : ¬(tag = "int" ∨ tag = "long")) (h7 : tag ≠ "time")
    (h8 : tag ∉ LOOSE_TYPES) (h9 : tag ∉ BINARY_TYPES) (h10 : tag ≠ "location")
    (h11 : tag ≠ "json") :
    field_to_property_schema ⟨name, tag⟩ m = .error (.unsupportedType tag) := by
  simp only [field_to_property_schema, schema_branch,
    if_neg h1, if_neg h2, if_neg h3, if_neg h4, if_neg h5, if_neg h6,
    if_neg h7, if_neg h8, if_neg h9, if_neg h10, if_neg h11]

theorem exceptOk_pair_inj {X ps : List (String × Json)} {m m' : Mdata}
    (h : (Except.ok (X, m) : Except TapErr (List (String × Json) × Mdata)) = .ok (ps, m')) :
    X = ps ∧ m = m' := by
  cases h
  exact ⟨rfl, rfl⟩

theorem mem_string_types_props (tag : String) (h : tag ∈ STRING_TYPES) :
    tag ≠ "location" ∧ tag ∉ DATE_TYPES := by
  simp only [STRING_TYPES] at h
  fin_cases h <;> decide

theorem mem_number_types_props (tag : String) (h : tag ∈ NUMBER_TYPES) :
    tag ≠ "location" ∧ tag ∉ DATE_TYPES := by
  simp only [NUMBER_TYPES] at h
  fin_cases h <;> decide

theorem mem_loose_types_props (tag : String) (h : tag ∈ LOOSE_TYPES) :
    tag ≠ "location" ∧ tag ∉ DATE_TYPES := by
  simp only [LOOSE_TYPES] at h
  fin_cases h <;> decide

theorem mem_binary_types_props (tag : String) (h : tag ∈ BINARY_TYPES) :
    tag ≠ "location" ∧ tag ∉ DATE_TYPES := by
  simp only [BINARY_TYPES] at h
  fin_cases h
  decide

theorem admits_null_wrapped (t : Json) :
    schema_admits_null [("type", Json.arr [.str "null", t])] = true := rfl

theorem admits_null_scalar (name b : String) (hn : name ≠ "Id") :
    schema_admits_null (spec_scalar_fragment name b) = true := by
  simp only [spec_scalar_fragment, if_neg hn]
  rfl

theorem admits_null_address (name : String) (hn : name ≠ "Id") :
    schema_admits_null (spec_address_fragment name) = true := by
  simp only [spec_address_fragment, if_neg hn]
  rfl

/-- Exhaustive characterization of every accepted field descriptor: the
type tag falls in exactly one row of the chain and the result is that
row's fragment (with the null wrap folded in) and metadata. -/
theorem mapField_ok_cases (name tag : String) (m : Mdata)
    (ps : List (String × Json)) (m' : Mdata)
    (h : field_to_property_schema ⟨name, tag⟩ m = .ok (ps, m')) :
    (tag ∈ STRING_TYPES ∧ ps = spec_scalar_fragment name "string" ∧ m' = m)
  ∨ (tag ∈ DATE_TYPES ∧ ps = spec_date_fragment ∧ m' = m)
  ∨ (tag = "boolean" ∧ ps = spec_scalar_fragment name "boolean" ∧ m' = m)
  ∨ (tag ∈ NUMBER_TYPES ∧ ps = spec_scalar_fragment name "number" ∧ m' = m)
  ∨ (tag = "address" ∧ ps = spec_address_fragment name ∧ m' = m)
  ∨ ((tag = "int" ∨ tag = "long") ∧ ps = spec_scalar_fragment name "integer" ∧ m' = m)
  ∨ (tag = "time" ∧ ps = spec_scalar_fragment name "string" ∧ m' = m)
  ∨ (tag ∈ LOOSE_TYPES ∧ ps = [] ∧ m' = m)
  ∨ (tag ∈ BINARY_TYPES ∧ ps = [] ∧ m' =
      metadata_write (metadata_write m ("properties", name) "inclusion" "unsupported")
        ("properties", name) "unsupported-description" "binary data")
  ∨ (tag = "location" ∧ ps = spec_location_fragment ∧ m' = m)
  ∨ (tag = "json" ∧ ps = spec_scalar_fragment name "string" ∧ m' = m) := by
  by_cases h1 : tag ∈ STRING_TYPES
  · obtain ⟨hps, hm⟩ := exceptOk_pair_inj ((mapField_string_row name tag m h1).symm.trans h)
    exact Or.inl ⟨h1, hps.symm, hm.symm⟩
  by_cases h2 : tag ∈ DATE_TYPES
  · obtain ⟨hps, hm⟩ := exceptOk_pair_inj ((mapField_date_row name tag m h2).symm.trans h)
    exact Or.inr (Or.inl ⟨h2, hps.symm, hm.symm⟩)
  by_cases h3 : tag = "boolean"
  · subst h3
    obtain ⟨hps, hm⟩ := exceptOk_pair_inj ((mapField_boolean_row name m).symm.trans h)
    exact Or.inr (Or.inr (Or.inl ⟨rfl, hps.symm, hm.symm⟩))
  by_cases h4 : tag ∈ NUMBER_TYPES
  · obtain ⟨hps, hm⟩ := exceptOk_pair_inj ((mapField_number_row name tag m h4).symm.trans h)
    exact Or.inr (Or.inr (Or.inr (Or.inl ⟨h4, hps.symm, hm.symm⟩)))
  by_cases h5 : tag = "address"
  · subst h5
    obtain ⟨hps, hm⟩ := exceptOk_pair_inj ((mapField_address_row name m).symm.trans h)
    exact Or.inr (Or.inr (Or.inr (Or.inr (Or.inl ⟨rfl, hps.symm, hm.symm⟩))))
  by_cases h6 : tag = "int" ∨ tag = "long"
  · obtain ⟨hps, hm⟩ := exceptOk_pair_inj ((mapField_int_row name tag m h6).symm.trans h)
    exact Or.inr (Or.inr (Or.inr (Or.inr (Or.inr (Or.inl ⟨h6, hps.symm, hm.symm⟩)))))
  by_cases h7 : tag = "time"
  · subst h7
    obtain ⟨hps, hm⟩ := exceptOk_pair_inj ((mapField_time_row name m).symm.trans h)
    exact Or.inr (Or.inr (Or.inr (Or.inr (Or.inr (Or.inr (Or.inl ⟨rfl, hps.symm, hm.symm⟩))))))
  by_cases h8 : tag ∈ LOOSE_TYPES
  · obtain ⟨hps, hm⟩ := exceptOk_pair_inj ((mapField_loose_row name tag m h8).symm.trans h)
    exact Or.inr (Or.inr (Or.inr (Or.inr (Or.inr (Or.inr (Or.inr (Or.inl ⟨h8, hps.symm, hm.symm⟩)))))))
  by_cases h9 : tag ∈ BINARY_TYPES
  · obtain ⟨hps, hm⟩ := exceptOk_pair_inj ((mapField_binary_row name tag m h9).symm.trans h)
    exact Or.inr (Or.inr (Or.inr (Or.inr (Or.inr (Or.inr (Or.inr (Or.inr (Or.inl ⟨h9, hps.symm, hm.symm⟩))))))))
  by_cases h10 : tag = "location"
  · subst h10
    obtain ⟨hps, hm⟩ := exceptOk_pair_inj ((mapField_location_row name m).symm.trans h)
    exact Or.inr (Or.inr (Or.inr (Or.inr (Or.inr (Or.inr (Or.inr (Or.inr (Or.inr (Or.inl ⟨rfl, hps.symm, hm.symm⟩)))))))))
  by_cases h11 : tag = "json"
  · subst h11
    obtain ⟨hps, hm⟩ := exceptOk_pair_inj ((mapField_json_row name m).symm.trans h)
    exact Or.inr (Or.inr (Or.inr (Or.inr (Or.inr (Or.inr (Or.inr (Or.inr (Or.inr (Or.inr ⟨rfl, hps.symm, hm.symm⟩)))))))))
  · rw [mapField_unknown name tag m h1 h2 h3 h4 h5 h6 h7 h8 h9 h10 h11] at h
    exact Except.noConfusion h

theorem lookup_scalar_wrapped (name b : String) (hn : name ≠ "Id") :
    (spec_scalar_fragment name b).lookup "type" =
      some (Json.arr [.str "null", .str b]) := by
  simp only [spec_scalar_fragment, if_neg hn]
  rfl

theorem lookup_address_wrapped (name : String) (hn : name ≠ "Id") :
    (spec_address_fragment name).lookup "type" =
      some (Json.arr [.str "null", .str "object"]) := by
  simp only [spec_address_fragment, if_neg hn]
  rfl

/-- C1: for every field descriptor whose type tag is in the supported
vocabulary, `field_to_property_schema` returns exactly the fragment given
by the spec §4.3 table (string types to `string`; boolean to `boolean`;
double/currency/percent to `number`; int/long to `integer`; time and json
to `string`; datetime/date to the anyOf union of `{string,
format=date-time}` and `{string|null}`; address to an object with the
eight fixed nullable sub-properties; location to the `{number, object,
null}` union with longitude/latitude sub-properties; anyType/calculated
to an empty fragment with no metadata patch; byte to an empty fragment
with a metadata patch marking the field unsupported with reason "binary
data"), with the table's general nullability rule folded into the
`spec_*_fragment` definitions; and for every type tag outside that
vocabulary (i.e. matching none of the chain's conditions) it fails with
the unsupported-type error. -/
theorem mapField_matches_spec_table :
    (∀ name tag m, tag ∈ STRING_TYPES →
      field_to_property_schema ⟨name, tag⟩ m = .ok (spec_scalar_fragment name "string", m))
  ∧ (∀ name tag m, tag ∈ DATE_TYPES →
      field_to_property_schema ⟨name, tag⟩ m = .ok (spec_date_fragment, m))
  ∧ (∀ name m, field_to_property_schema ⟨name, "boolean"⟩ m =
      .ok (spec_scalar_fragment name "boolean", m))
  ∧ (∀ name tag m, tag ∈ NUMBER_TYPES →
      field_to_property_schema ⟨name, tag⟩ m = .ok (spec_scalar_fragment name "number", m))
  ∧ (∀ name tag m, tag = "int" ∨ tag = "long" →
      field_to_property_schema ⟨name, tag⟩ m = .ok (spec_scalar_fragment name "integer", m))
  ∧ (∀ name m, field_to_property_schema ⟨name, "time"⟩ m =
      .ok (spec_scalar_fragment name "string", m))
  ∧ (∀ name m, field_to_property_schema ⟨name, "json"⟩ m =
      .ok (spec_scalar_fragment name "string", m))
  ∧ (∀ name m, field_to_property_schema ⟨name, "address"⟩ m =
      .ok (spec_address_fragment name, m))
  ∧ (∀ name m, field_to_property_schema ⟨name, "location"⟩ m =
      .ok (spec_location_fragment, m))
  ∧ (∀ name tag m, tag ∈ LOOSE_TYPES →
      field_to_property_schema ⟨name, tag⟩ m = .ok ([], m))
  ∧ (∀ name tag m, tag ∈ BINARY_TYPES →
      field_to_property_schema ⟨name, tag⟩ m =
        .ok ([], metadata_write
              (metadata_write m ("properties", name) "inclusion" "unsupported")
              ("properties", name) "unsupported-description" "binary data"))
  ∧ (∀ name tag m, tag ∉ STRING_TYPES → tag ∉ DATE_TYPES → tag ≠ "boolean" →
      tag ∉ NUMBER_TYPES → tag ≠ "address" → ¬(tag = "int" ∨ tag = "long") →
      tag ≠ "time" → tag ∉ LOOSE_TYPES → tag ∉ BINARY_TYPES → tag ≠ "location" →
      tag ≠ "json" →
      field_to_property_schema ⟨name, tag⟩ m = .error (.unsupportedType tag)) :=
  ⟨mapField_string_row, mapField_date_row, mapField_boolean_row,
   mapField_number_row, mapField_int_row, mapField_time_row, mapField_json_row,
   mapField_address_row, mapField_location_row, mapField_loose_row,
   mapField_binary_row, mapField_unknown⟩

theorem mapField_matches_spec_table_witness :
    ("picklist" ∈ STRING_TYPES ∧
      field_to_property_schema ⟨"Status", "picklist"⟩ [] =
        .ok (spec_scalar_fragment "Status" "string", []))
  ∧ ("blob" ∉ STRING_TYPES ∧
      field_to_property_schema ⟨"Payload", "blob"⟩ [] =
        .error (.unsupportedType "blob")) := by
  obtain ⟨hs, -, -, -, -, -, -, -, -, -, -, hu⟩ := mapField_matches_spec_table
  refine ⟨⟨by decide, hs "Status" "picklist" [] (by decide)⟩, ⟨by decide, ?_⟩⟩
  exact hu "Payload" "blob" [] (by decide) (by decide) (by decide) (by decide)
    (by decide) (by decide) (by decide) (by decide) (by decide) (by decide) (by decide)

/-- C2: for every field descriptor accepted by the mapper, the returned
fragment satisfies the nullability invariant: when the field name is not
the primary-key name `"Id"`, the type not a date/time type and not
`location`, the fragment's type constraint admits null (either a union
listing the null marker, or — for the loose/binary empty fragments — no
type constraint at all, which admits every value including null);
date/time fragments carry a null-admitting alternative inside `anyOf` and
no additionally wrapped outer `type`; the `location` fragment's type is
exactly the original three-element union with null, not wrapped a second
time. -/
theorem mapField_nullability_invariant (name tag : String) (m : Mdata)
    (ps : List (String × Json)) (m' : Mdata)
    (h : field_to_property_schema ⟨name, tag⟩ m = .ok (ps, m')) :
    (name ≠ "Id" → tag ∉ DATE_TYPES → tag ≠ "location" →
      schema_admits_null ps = true)
  ∧ (tag ∈ DATE_TYPES → ps.lookup "type" = none ∧ anyOf_admits_null ps = true)
  ∧ (tag = "location" →
      ps.lookup "type" = some (Json.arr [.str "number", .str "object", .str "null"])) := by
  rcases mapField_ok_cases name tag m ps m' h with
    ⟨ht, rfl, rfl⟩ | ⟨ht, rfl, rfl⟩ | ⟨rfl, rfl, rfl⟩ | ⟨ht, rfl, rfl⟩ | ⟨rfl, rfl, rfl⟩ |
    ⟨ht, rfl, rfl⟩ | ⟨rfl, rfl, rfl⟩ | ⟨ht, rfl, rfl⟩ | ⟨ht, rfl, rfl⟩ | ⟨rfl, rfl, rfl⟩ |
    ⟨rfl, rfl, rfl⟩
  · exact ⟨fun hn _ _ => admits_null_scalar name "string" hn,
      fun hd => absurd hd (mem_string_types_props tag ht).2,
      fun hl => absurd hl (mem_string_types_props tag ht).1⟩
  · refine ⟨fun _ hd _ => absurd ht hd, fun _ => ⟨rfl, rfl⟩, fun hl => ?_⟩
    rw [hl] at ht
    exact absurd ht (by decide)
  · exact ⟨fun hn _ _ => admits_null_scalar name "boolean" hn,
      fun hd => absurd hd (by decide), fun hl => absurd hl (by decide)⟩
  · exact ⟨fun hn _ _ => admits_null_scalar name "number" hn,
      fun hd => absurd hd (mem_number_types_props tag ht).2,
      fun hl => absurd hl (mem_number_types_props tag ht).1⟩
  · exact ⟨fun hn _ _ => admits_null_address name hn,
      fun hd => absurd hd (by decide), fun hl => absurd hl (by decide)⟩
  · refine ⟨fun hn _ _ => admits_null_scalar name "integer" hn, fun hd => ?_, fun hl => ?_⟩
    · rcases ht with rfl | rfl <;> exact absurd hd (by decide)
    · rcases ht with rfl | rfl <;> exact absurd hl (by decide)
  · exact ⟨fun hn _ _ => admits_null_scalar name "string" hn,
      fun hd => absurd hd (by decide), fun hl => absurd hl (by decide)⟩
  · exact ⟨fun _ _ _ => rfl,
      fun hd => absurd hd (mem_loose_types_props tag ht).2,
      fun hl => absurd hl (mem_loose_types_props tag ht).1⟩
  · exact ⟨fun _ _ _ => rfl,
      fun hd => absurd hd (mem_binary_types_props tag ht).2,
      fun hl => absurd hl (mem_binary_types_props tag ht).1⟩
  · exact ⟨fun _ _ hl => absurd rfl hl,
      fun hd => absurd hd (by decide), fun _ => rfl⟩
  · exact ⟨fun hn _ _ => admits_null_scalar name "string" hn,
      fun hd => absurd hd (by decide), fun hl => absurd hl (by decide)⟩

theorem mapField_nullability_invariant_witness :
    field_to_property_schema ⟨"LastName", "string"⟩ [] =
      .ok ([("type", Json.arr [.str "null", .str "string"])], [])
  ∧ schema_admits_null [("type", Json.arr [.str "null", .str "string"])] = true := by
  refine ⟨rfl, ?_⟩
  exact (mapField_nullability_invariant "LastName" "string" [] _ [] rfl).1
    (by decide) (by decide) (by decide)

/-- C10: the primary-key exemption from the null wrap applies exactly to
fields whose name is the literal, case-sensitive string `"Id"`: a
string-typed field named `"Id"` keeps the bare type `string`; fields
named `"id"` or `"ID"` get the null-including union; a field named
`"Id"` of any type passes the wrap stage untouched; and any field whose
name is not `"Id"`, of any accepted non-date, non-location, non-loose,
non-binary type, always carries the null-including union type. -/
theorem id_exemption_case_sensitive :
    (∀ m, field_to_property_schema ⟨"Id", "string"⟩ m =
      .ok ([("type", Json.str "string")], m))
  ∧ (∀ m, field_to_property_schema ⟨"id", "string"⟩ m =
      .ok ([("type", Json.arr [.str "null", .str "string"])], m))
  ∧ (∀ m, field_to_property_schema ⟨"ID", "string"⟩ m =
      .ok ([("type", Json.arr [.str "null", .str "string"])], m))
  ∧ (∀ tag m, field_to_property_schema ⟨"Id", tag⟩ m =
      (schema_branch "Id" tag m).map (fun r => (r.1, r.2.1)))
  ∧ (∀ name tag m ps m', name ≠ "Id" → tag ∉ DATE_TYPES → tag ≠ "location" →
      tag ∉ LOOSE_TYPES → tag ∉ BINARY_TYPES →
      field_to_property_schema ⟨name, tag⟩ m = .ok (ps, m') →
      ∃ t, ps.lookup "type" = some (Json.arr [.str "null", t])) := by
  refine ⟨fun m => rfl, fun m => rfl, fun m => rfl, fun tag m => ?_, ?_⟩
  · rcases hb : schema_branch "Id" tag m with e | ⟨ps, m2, b⟩
    · simp [field_to_property_schema, hb, Except.map]
    · cases b
      · simp [field_to_property_schema, hb, wrap_skip_of_id, Except.map]
      · simp [field_to_property_schema, hb, Except.map]
  · intro name tag m ps m' hn hd hl hloose hbin h
    rcases mapField_ok_cases name tag m ps m' h with
      ⟨ht, rfl, rfl⟩ | ⟨ht, rfl, rfl⟩ | ⟨rfl, rfl, rfl⟩ | ⟨ht, rfl, rfl⟩ | ⟨rfl, rfl, rfl⟩ |
      ⟨ht, rfl, rfl⟩ | ⟨rfl, rfl, rfl⟩ | ⟨ht, rfl, rfl⟩ | ⟨ht, rfl, rfl⟩ | ⟨rfl, rfl, rfl⟩ |
      ⟨rfl, rfl, rfl⟩
    · exact ⟨.str "string", lookup_scalar_wrapped name "string" hn⟩
    · exact absurd ht hd
    · exact ⟨.str "boolean", lookup_scalar_wrapped name "boolean" hn⟩
    · exact ⟨.str "number", lookup_scalar_wrapped name "number" hn⟩
    · exact ⟨.str "object", lookup_address_wrapped name hn⟩
    · exact ⟨.str "integer", lookup_scalar_wrapped name "integer" hn⟩
    · exact ⟨.str "string", lookup_scalar_wrapped name "string" hn⟩
    · exact absurd ht hloose
    · exact absurd ht hbin
    · exact absurd rfl hl
    · exact ⟨.str "string", lookup_scalar_wrapped name "string" hn⟩

theorem id_exemption_case_sensitive_witness :
    field_to_property_schema ⟨"ID", "string"⟩ [] =
      .ok ([("type", Json.arr [.str "null", .str "string"])], [])
  ∧ ∃ t, ([("type", Json.arr [.str "null", .str "string"])] :
      List (String × Json)).lookup "type" = some (Json.arr [.str "null", t]) := by
  obtain ⟨-, -, h3, -, h5⟩ := id_exemption_case_sensitive
  exact ⟨h3 [], h5 "ID" "string" [] _ [] (by decide) (by decide) (by decide)
    (by decide) (by decide) (h3 [])⟩

theorem check_eval (s : Salesforce) (headers : List (String × String))
    (v : String) (used allotted : ℕ)
    (hl : headers.lookup "Sforce-Limit-Info" = some v)
    (hp : parse_api_usage v = some (used, allotted)) (h0 : ¬allotted = 0) :
    check_rest_quota_usage s headers =
      (if ((used : ℚ) / (allotted : ℚ)) * 100 > s.quota_percent_total then
        .error .quotaExceededTotal
      else if (s.rest_requests_attempted : ℤ) >
          max_requests_for_run s.quota_percent_per_run allotted then
        .error .quotaExceededPerRun
      else .ok ()) := by
  simp only [check_rest_quota_usage, hl, hp, if_neg h0]

/-- C3: with quotaPercentPerRun=25 and a response reporting allotted=1000
(total usage below the total ceiling), the per-run bound is
`max_requests_for_run = int(25 * 1000 / 100) = 250`, computed from the
current response's allotted value; `check_rest_quota_usage` does not
raise when the counter equals exactly 250 and raises the per-run
quota-exceeded condition at 251; and in `_make_request` the counter is
incremented before the check, so the triggering request itself is
counted: with 250 requests already made, the 251st request fails the
per-run check, while with 249 already made the 250th passes and leaves
the counter at 250. -/
theorem per_run_quota_bound :
    max_requests_for_run 25 1000 = 250
  ∧ (∀ s v used, s.quota_percent_per_run = 25 → s.quota_percent_total = 80 →
      parse_api_usage v = some (used, 1000) → ((used : ℚ) / 1000) * 100 ≤ 80 →
      (s.rest_requests_attempted = 250 →
        check_rest_quota_usage s [("Sforce-Limit-Info", v)] = .ok ())
      ∧ (s.rest_requests_attempted = 251 →
        check_rest_quota_usage s [("Sforce-Limit-Info", v)] =
          .error .quotaExceededPerRun))
  ∧ (∀ s st rs hd v used, hd.lookup "Sforce-Limit-Info" = some v →
      parse_api_usage v = some (used, 1000) →
      s.quota_percent_per_run = 25 → s.quota_percent_total = 80 →
      ((used : ℚ) / 1000) * 100 ≤ 80 →
      raise_for_status st rs = .ok () →
      (s.rest_requests_attempted = 250 →
        make_request_once s (.response st rs hd) = .error .quotaExceededPerRun)
      ∧ (s.rest_requests_attempted = 249 →
        make_request_once s (.response st rs hd) =
          .ok ({ s with rest_requests_attempted := 250 }, ⟨st, rs, hd⟩))) := by
  have hmax : max_requests_for_run 25 1000 = 250 := by
    norm_num [max_requests_for_run, pyInt]
  refine ⟨hmax, ?_, ?_⟩
  · rintro ⟨qppr, qpt, n, sel, api⟩ v used h25 h80 hp hle
    simp only at h25 h80
    subst h25
    subst h80
    constructor
    · rintro rfl
      rw [check_eval _ _ v used 1000 (List.lookup_cons_self) hp (by norm_num)]
      rw [if_neg (by push_cast; exact not_lt.mpr hle)]
      rw [if_neg (by rw [hmax]; norm_num)]
    · rintro rfl
      rw [check_eval _ _ v used 1000 (List.lookup_cons_self) hp (by norm_num)]
      rw [if_neg (by push_cast; exact not_lt.mpr hle)]
      rw [if_pos (by rw [hmax]; norm_num)]
  · rintro ⟨qppr, qpt, n, sel, api⟩ st rs hd v used hl hp h25 h80 hle hst
    simp only at h25 h80
    subst h25
    subst h80
    constructor
    · rintro rfl
      have hc : check_rest_quota_usage ⟨25, 80, 251, sel, api⟩ hd =
          .error .quotaExceededPerRun := by
        rw [check_eval _ _ v used 1000 hl hp (by norm_num)]
        rw [if_neg (by push_cast; exact not_lt.mpr hle)]
        rw [if_pos (by rw [hmax]; norm_num)]
      simp only [make_request_once, hst, hl, Option.isSome_some, if_true, hc]
    · rintro rfl
      have hc : check_rest_quota_usage ⟨25, 80, 250, sel, api⟩ hd = .ok () := by
        rw [check_eval _ _ v used 1000 hl hp (by norm_num)]
        rw [if_neg (by push_cast; exact not_lt.mpr hle)]
        rw [if_neg (by rw [hmax]; norm_num)]
      simp only [make_request_once, hst, hl, Option.isSome_some, if_true, hc]

theorem per_run_quota_bound_witness :
    check_rest_quota_usage { sfDefault with rest_requests_attempted := 250 }
      [("Sforce-Limit-Info", "api-usage=100/1000")] = .ok ()
  ∧ check_rest_quota_usage { sfDefault with rest_requests_attempted := 251 }
      [("Sforce-Limit-Info", "api-usage=100/1000")] = .error .quotaExceededPerRun
  ∧ make_request_once { sfDefault with rest_requests_attempted := 250 }
      (.response 200 "OK" [("Sforce-Limit-Info", "api-usage=100/1000")]) =
      .error .quotaExceededPerRun := by
  obtain ⟨-, h2, h3⟩ := per_run_quota_bound
  refine ⟨(h2 _ "api-usage=100/1000" 100 rfl rfl (by decide) (by norm_num)).1 rfl,
    (h2 _ "api-usage=100/1000" 100 rfl rfl (by decide) (by norm_num)).2 rfl,
    (h3 _ 200 "OK" [("Sforce-Limit-Info", "api-usage=100/1000")]
      "api-usage=100/1000" 100 (List.lookup_cons_self) (by decide) rfl rfl
      (by norm_num) rfl).1 rfl⟩

/-- C4 counterexample: with allotted=1000 and used=150,
`percentUsedOfTotal` is 15%, not the 85% the spec asserts for this
example; with `quotaPercentTotal=80` (and the run counter at 0) the check
returns normally instead of raising the claimed quota-exceeded
condition. -/
theorem total_quota_claimed_example_false :
    check_rest_quota_usage sfDefault
      [("Sforce-Limit-Info", "api-usage=150/1000")] = .ok ()
  ∧ check_rest_quota_usage sfDefault
      [("Sforce-Limit-Info", "api-usage=150/1000")] ≠
      .error .quotaExceededTotal := by
  have h : check_rest_quota_usage sfDefault
      [("Sforce-Limit-Info", "api-usage=150/1000")] = .ok () := by
    rw [check_eval _ _ "api-usage=150/1000" 150 1000 (List.lookup_cons_self)
      (by decide) (by norm_num)]
    rw [if_neg (by norm_num [sfDefault])]
    rw [if_neg (by norm_num [sfDefault, max_requests_for_run, pyInt])]
  refine ⟨h, ?_⟩
  intro hc
  rw [h] at hc
  exact Except.noConfusion hc

/-- C4 (amended): `check_rest_quota_usage` computes `percentUsedOfTotal =
used/allotted*100` and raises the total-quota condition exactly when that
value exceeds `quotaPercentTotal` (when it does not, the call returns
normally provided the per-run bound also holds); with allotted=1000 the
raising example is used=850 (85%), not used=150 (15%), and used=750
(75%) does not raise. -/
theorem total_quota_threshold (s : Salesforce) (headers : List (String × String))
    (v : String) (used allotted : ℕ)
    (hl : headers.lookup "Sforce-Limit-Info" = some v)
    (hp : parse_api_usage v = some (used, allotted)) (h0 : ¬allotted = 0) :
    (((used : ℚ) / (allotted : ℚ)) * 100 > s.quota_percent_total →
      check_rest_quota_usage s headers = .error .quotaExceededTotal)
  ∧ (((used : ℚ) / (allotted : ℚ)) * 100 ≤ s.quota_percent_total →
      (s.rest_requests_attempted : ℤ) ≤
        max_requests_for_run s.quota_percent_per_run allotted →
      check_rest_quota_usage s headers = .ok ()) := by
  rw [check_eval s headers v used allotted hl hp h0]
  constructor
  · intro h
    rw [if_pos h]
  · intro h1 h2
    rw [if_neg (not_lt.mpr h1), if_neg (not_lt.mpr h2)]

theorem total_quota_threshold_witness :
    check_rest_quota_usage sfDefault
      [("Sforce-Limit-Info", "api-usage=850/1000")] = .error .quotaExceededTotal
  ∧ check_rest_quota_usage sfDefault
      [("Sforce-Limit-Info", "api-usage=750/1000")] = .ok () := by
  constructor
  · exact (total_quota_threshold sfDefault _ "api-usage=850/1000" 850 1000
      (List.lookup_cons_self) (by decide) (by norm_num)).1 (by norm_num [sfDefault])
  · exact (total_quota_threshold sfDefault _ "api-usage=750/1000" 750 1000
      (List.lookup_cons_self) (by decide) (by norm_num)).2
      (by norm_num [sfDefault])
      (by norm_num [sfDefault, max_requests_for_run, pyInt])

/-- C7 counterexample: with the quota header absent, `headers.get`
yields Python `None` and `re.search` applied to `None` raises a
`TypeError` — `check_rest_quota_usage` does not return normally, contrary
to the claim. -/
theorem check_usage_absent_header_raises :
    check_rest_quota_usage sfDefault [] = .error .typeError
  ∧ check_rest_quota_usage sfDefault [] ≠ .ok () := by
  refine ⟨rfl, ?_⟩
  intro hc
  rw [show check_rest_quota_usage sfDefault [] = .error .typeError from rfl] at hc
  exact Except.noConfusion hc

/-- C7 (amended): when the quota header is present but its value does not
match the anchored `api-usage=<used>/<allotted>` pattern, the check is a
no-op — it returns normally and fabricates no numbers; when the header is
absent, the function itself raises a `TypeError` (its only caller invokes
it after checking that the header is present). -/
theorem check_usage_malformed_noop (s : Salesforce)
    (headers : List (String × String)) :
    (∀ v, headers.lookup "Sforce-Limit-Info" = some v →
      parse_api_usage v = none → check_rest_quota_usage s headers = .ok ())
  ∧ (headers.lookup "Sforce-Limit-Info" = none →
      check_rest_quota_usage s headers = .error .typeError) := by
  constructor
  · intro v hl hp
    simp only [check_rest_quota_usage, hl, hp]
  · intro hl
    simp only [check_rest_quota_usage, hl]

theorem check_usage_malformed_noop_witness :
    parse_api_usage "api-usage=abc/1000" = none
  ∧ check_rest_quota_usage sfDefault
      [("Sforce-Limit-Info", "api-usage=abc/1000")] = .ok () := by
  refine ⟨by decide, ?_⟩
  exact (check_usage_malformed_noop sfDefault _).1 "api-usage=abc/1000" rfl (by decide)

/-- C5: for every catalog entry declaring a (non-empty) replication key,
the built query is exactly the base `SELECT <comma-joined selected
fields> FROM <stream>` followed by ` WHERE <key> >= <startDate> ` (with
the source's trailing space), then ` AND <key> < <endDate>` when an end
date is given, then ` ORDER BY <key> ASC` when the order-by flag is set —
e.g. with key SystemModstamp, start 2024-01-01T00:00:00Z, no end date and
the flag on, exactly `... WHERE SystemModstamp >= 2024-01-01T00:00:00Z
ORDER BY SystemModstamp ASC` with a double space before ORDER; and for
every catalog entry without a replication key, exactly the base query
with no WHERE/AND/ORDER BY clause. -/
theorem build_query_string_shape :
    (∀ s ce start_date end_date ob rk, ce.replication_key = some rk → rk ≠ "" →
      build_query_string s ce start_date end_date ob =
        "SELECT " ++ String.intercalate "," (get_selected_properties s ce) ++
        " FROM " ++ ce.stream ++ " WHERE " ++ rk ++ " >= " ++ start_date ++ " " ++
        (match end_date with
         | some ed => if ed = "" then "" else " AND " ++ rk ++ " < " ++ ed
         | none => "") ++
        (if ob then " ORDER BY " ++ rk ++ " ASC" else ""))
  ∧ (∀ s ce start_date end_date ob, ce.replication_key = none →
      build_query_string s ce start_date end_date ob =
        "SELECT " ++ String.intercalate "," (get_selected_properties s ce) ++
        " FROM " ++ ce.stream)
  ∧ build_query_string sfDefault ceExample "2024-01-01T00:00:00Z" none true =
      "SELECT Id,SystemModstamp FROM Account WHERE SystemModstamp >= 2024-01-01T00:00:00Z  ORDER BY SystemModstamp ASC"
  ∧ build_query_string sfDefault ceExample "2024-01-01T00:00:00Z"
      (some "2024-02-01T00:00:00Z") true =
      "SELECT Id,SystemModstamp FROM Account WHERE SystemModstamp >= 2024-01-01T00:00:00Z  AND SystemModstamp < 2024-02-01T00:00:00Z ORDER BY SystemModstamp ASC" := by
  refine ⟨?_, ?_, by decide, by decide⟩
  · intro s ce start_date end_date ob rk hrk hne
    simp only [build_query_string, hrk, if_neg hne]
    cases end_date with
    | none => cases ob <;> simp [String.append_assoc]
    | some ed => cases ob <;> by_cases he : ed = "" <;> simp [he, String.append_assoc]
  · intro s ce start_date end_date ob hrk
    simp only [build_query_string, hrk]

theorem build_query_string_shape_witness :
    build_query_string sfDefault ceExample "2024-01-01T00:00:00Z" none false =
      "SELECT Id,SystemModstamp FROM Account WHERE SystemModstamp >= 2024-01-01T00:00:00Z " := by
  have h := build_query_string_shape.1 sfDefault ceExample "2024-01-01T00:00:00Z"
    none false "SystemModstamp" rfl (by decide)
  exact h.trans (by decide)

theorem backoff_run_ok (env : ℕ → AttemptOutcome) (s : Salesforce)
    (attempt t : ℕ) (r : Salesforce × Response)
    (h : make_request_once s (env attempt) = .ok r) :
    backoff_run env s attempt (t + 1) = .ok r := by
  simp only [backoff_run, h]

theorem backoff_run_noretry (env : ℕ → AttemptOutcome) (s : Salesforce)
    (attempt t : ℕ) (e : TapErr)
    (h : make_request_once s (env attempt) = .error e)
    (hr : is_retryable e = false) :
    backoff_run env s attempt (t + 1) = .error e := by
  rw [backoff_run.eq_def]
  simp [h, hr]

theorem backoff_run_last (env : ℕ → AttemptOutcome) (s : Salesforce)
    (attempt : ℕ) (e : TapErr)
    (h : make_request_once s (env attempt) = .error e)
    (hr : is_retryable e = true) :
    backoff_run env s attempt 1 = .error e := by
  rw [backoff_run.eq_def]
  simp [h, hr]

theorem backoff_run_step (env : ℕ → AttemptOutcome) (s : Salesforce)
    (attempt t : ℕ) (e : TapErr)
    (h : make_request_once s (env attempt) = .error e)
    (hr : is_retryable e = true) :
    backoff_run env s attempt (t + 1 + 1) = backoff_run env s (attempt + 1) (t + 1) := by
  rw [backoff_run.eq_def]
  simp [h, hr]

theorem backoff_const_conn (s : Salesforce) :
    ∀ t attempt, backoff_run (fun _ => .connError) s attempt (t + 1) =
      .error .connectionError := by
  intro t
  induction t with
  | zero =>
      intro attempt
      exact backoff_run_last (fun _ => .connError) s attempt .connectionError rfl rfl
  | succ t ih =>
      intro attempt
      rw [backoff_run_step (fun _ => .connError) s attempt t .connectionError rfl rfl]
      exact ih (attempt + 1)

/-- C6 counterexample: a 304 Not Modified response is non-2xx, yet
`requests.Response.raise_for_status` (to which `raise_for_status`
delegates outside the 406 variant) raises only for statuses 400-599, so
`_make_request` returns the response normally instead of raising an HTTP
error — the claim that every other non-2xx response is raised is false at
this input. -/
theorem transport_non2xx_not_always_raised :
    make_request sfDefault (fun _ => .response 304 "Not Modified" []) =
      .ok (sfDefault, ⟨304, "Not Modified", []⟩)
  ∧ ¬(200 ≤ 304 ∧ 304 < 300) := ⟨rfl, by decide⟩

/-- C6 (amended): `_make_request` retries only on a connection-level
failure or on the HTTP 406 variant whose reason phrase contains
"CustomNotAcceptable", with at most 10 attempts; after 10 consecutive
retryable failures the underlying error propagates; failures on attempts
1-3 followed by a success on attempt 4 succeed; any non-retryable error
(in particular the HTTP error raised for every 4xx/5xx status other than
the 406 variant) propagates at once without retry — while a non-2xx
status outside 400-599 (e.g. a redirect) raises nothing. -/
theorem transport_retry_policy :
    (∀ s, make_request s (fun _ => .connError) = .error .connectionError)
  ∧ (∀ s env, env 1 = .connError → env 2 = .connError → env 3 = .connError →
      env 4 = .response 200 "OK" [] →
      make_request s env = .ok (s, ⟨200, "OK", []⟩))
  ∧ (∀ s env e, make_request_once s (env 1) = .error e → is_retryable e = false →
      make_request s env = .error e)
  ∧ (∀ e, is_retryable e = true ↔ (e = .connectionError ∨ e = .customNotAcceptable))
  ∧ (∀ st rs, raise_for_status st rs = .error .customNotAcceptable ↔
      (st = 406 ∧ strContainsSub rs "CustomNotAcceptable" = true))
  ∧ (∀ st rs, ¬(st = 406 ∧ strContainsSub rs "CustomNotAcceptable" = true) →
      400 ≤ st → st < 600 → raise_for_status st rs = .error (.httpError st)) := by
  refine ⟨?_, ?_, ?_, ?_, ?_, ?_⟩
  · intro s
    exact backoff_const_conn s 9 1
  · intro s env h1 h2 h3 h4
    show backoff_run env s 1 (8 + 1 + 1) = .ok (s, ⟨200, "OK", []⟩)
    rw [backoff_run_step env s 1 8 .connectionError (by rw [h1]; rfl) rfl]
    show backoff_run env s 2 (7 + 1 + 1) = .ok (s, ⟨200, "OK", []⟩)
    rw [backoff_run_step env s 2 7 .connectionError (by rw [h2]; rfl) rfl]
    show backoff_run env s 3 (6 + 1 + 1) = .ok (s, ⟨200, "OK", []⟩)
    rw [backoff_run_step env s 3 6 .connectionError (by rw [h3]; rfl) rfl]
    exact backoff_run_ok env s 4 6 (s, ⟨200, "OK", []⟩) (by rw [h4]; rfl)
  · intro s env e h hr
    exact backoff_run_noretry env s 1 9 e h hr
  · intro e
    cases e <;> simp [is_retryable]
  · intro st rs
    unfold raise_for_status
    by_cases hc : st = 406 ∧ strContainsSub rs "CustomNotAcceptable" = true
    · rw [if_pos hc]
      simp [hc]
    · rw [if_neg hc]
      split_ifs <;> simp [hc]
  · intro st rs hnc h4 h6
    unfold raise_for_status
    rw [if_neg hnc, if_pos ⟨h4, h6⟩]

theorem transport_retry_policy_witness :
    make_request sfDefault (fun _ => .connError) = .error .connectionError
  ∧ make_request sfDefault
      (fun i => if i ≤ 3 then .connError else .response 200 "OK" []) =
      .ok (sfDefault, ⟨200, "OK", []⟩)
  ∧ make_request sfDefault (fun _ => .response 500 "Server Error" []) =
      .error (.httpError 500) := by
  obtain ⟨h1, h2, h3, -, -, -⟩ := transport_retry_policy
  exact ⟨h1 sfDefault,
    h2 sfDefault (fun i => if i ≤ 3 then .connError else .response 200 "OK" [])
      rfl rfl rfl rfl,
    h3 sfDefault (fun _ => .response 500 "Server Error" []) (.httpError 500) rfl rfl⟩

theorem mem_set_union (x : String) (a b : List String) :
    x ∈ set_union a b ↔ x ∈ a ∨ x ∈ b := by
  simp only [set_union, List.mem_append, List.mem_filter, decide_eq_true_eq]
  constructor
  · rintro (h | ⟨h, -⟩)
    exacts [Or.inl h, Or.inr h]
  · rintro (h | h)
    · exact Or.inl h
    · by_cases ha : x ∈ a
      · exact Or.inl ha
      · exact Or.inr ⟨h, ha⟩

/-- C8 counterexample: `AttachedContentNote` (and likewise
`QuoteTemplateRichTextData`) appears in both the bulk-unsupported and the
query-incompatible object tables, so the three blacklist tables are not
pairwise disjoint. -/
theorem blacklists_not_pairwise_disjoint :
    "AttachedContentNote" ∈ UNSUPPORTED_BULK_API_SALESFORCE_OBJECTS
  ∧ "AttachedContentNote" ∈ QUERY_INCOMPATIBLE_SALESFORCE_OBJECTS := by decide

/-- C8 (amended): of the three blacklist tables, the bulk-unsupported set
is disjoint from the query-restricted set and the query-restricted set is
disjoint from the query-incompatible set, but the bulk-unsupported and
query-incompatible sets overlap in exactly `AttachedContentNote` and
`QuoteTemplateRichTextData`. -/
theorem blacklist_tables_overlap :
    listDisjoint UNSUPPORTED_BULK_API_SALESFORCE_OBJECTS
      QUERY_RESTRICTED_SALESFORCE_OBJECTS = true
  ∧ listDisjoint QUERY_RESTRICTED_SALESFORCE_OBJECTS
      QUERY_INCOMPATIBLE_SALESFORCE_OBJECTS = true
  ∧ UNSUPPORTED_BULK_API_SALESFORCE_OBJECTS.filter
      (fun x => QUERY_INCOMPATIBLE_SALESFORCE_OBJECTS.contains x) =
      ["AttachedContentNote", "QuoteTemplateRichTextData"] := by decide

/-- C9: the object blacklist for the BULK (and BULK2) strategy is the
union of all three tables and is a strict superset of the REST
blacklist, which is the union of the query-restricted and
query-incompatible tables only (e.g. `AssetTokenEvent` is blacklisted for
BULK but not for REST); and for any stored strategy identifier other
than REST, BULK or BULK2 — including the `None` left by an unset
`api_type` — both `get_blacklisted_objects` and `get_blacklisted_fields`
fail with the fatal configuration error. -/
theorem blacklist_strategy_superset :
    (∀ s, s.api_type = some BULK_API_TYPE ∨ s.api_type = some BULK2_API_TYPE →
      get_blacklisted_objects s = .ok (set_union
        (set_union UNSUPPORTED_BULK_API_SALESFORCE_OBJECTS
          QUERY_RESTRICTED_SALESFORCE_OBJECTS)
        QUERY_INCOMPATIBLE_SALESFORCE_OBJECTS))
  ∧ (∀ s, s.api_type = some REST_API_TYPE →
      get_blacklisted_objects s = .ok (set_union
        QUERY_RESTRICTED_SALESFORCE_OBJECTS
        QUERY_INCOMPATIBLE_SALESFORCE_OBJECTS))
  ∧ (∀ x, x ∈ set_union QUERY_RESTRICTED_SALESFORCE_OBJECTS
        QUERY_INCOMPATIBLE_SALESFORCE_OBJECTS →
      x ∈ set_union (set_union UNSUPPORTED_BULK_API_SALESFORCE_OBJECTS
        QUERY_RESTRICTED_SALESFORCE_OBJECTS) QUERY_INCOMPATIBLE_SALESFORCE_OBJECTS)
  ∧ ("AssetTokenEvent" ∈ set_union (set_union UNSUPPORTED_BULK_API_SALESFORCE_OBJECTS
        QUERY_RESTRICTED_SALESFORCE_OBJECTS) QUERY_INCOMPATIBLE_SALESFORCE_OBJECTS
      ∧ "AssetTokenEvent" ∉ set_union QUERY_RESTRICTED_SALESFORCE_OBJECTS
        QUERY_INCOMPATIBLE_SALESFORCE_OBJECTS)
  ∧ (∀ s t, s.api_type = some t → t ≠ REST_API_TYPE → t ≠ BULK_API_TYPE →
      t ≠ BULK2_API_TYPE →
      get_blacklisted_objects s = .error (.configError (some t))
      ∧ get_blacklisted_fields s = .error (.configError (some t)))
  ∧ (∀ s, s.api_type = none →
      get_blacklisted_objects s = .error (.configError none)
      ∧ get_blacklisted_fields s = .error (.configError none)) := by
  refine ⟨?_, ?_, ?_, by decide, ?_, ?_⟩
  · intro s h
    unfold get_blacklisted_objects
    rw [if_pos h]
  · intro s h
    unfold get_blacklisted_objects
    rw [if_neg (by rw [h]; decide), if_pos h]
  · intro x hx
    rw [mem_set_union] at hx
    rw [mem_set_union]
    rcases hx with h | h
    · exact Or.inl ((mem_set_union x _ _).mpr (Or.inr h))
    · exact Or.inr h
  · intro s t h hr hb hb2
    have hno : ¬(s.api_type = some BULK_API_TYPE ∨ s.api_type = some BULK2_API_TYPE) := by
      rw [h]
      rintro (hc | hc) <;> exact absurd (Option.some.inj hc) (by assumption)
    have hnr : ¬s.api_type = some REST_API_TYPE := by
      rw [h]
      intro hc
      exact hr (Option.some.inj hc)
    constructor
    · unfold get_blacklisted_objects
      rw [if_neg hno, if_neg hnr, h]
    · unfold get_blacklisted_fields
      rw [if_neg (by rw [h]; rintro (hc | hc) <;>
            exact absurd (Option.some.inj hc) (by assumption)), if_neg hnr, h]
  · intro s h
    constructor
    · unfold get_blacklisted_objects
      rw [if_neg (by rw [h]; rintro (hc | hc) <;> exact Option.noConfusion hc),
        if_neg (by rw [h]; exact fun hc => Option.noConfusion hc), h]
    · unfold get_blacklisted_fields
      rw [if_neg (by rw [h]; rintro (hc | hc) <;> exact Option.noConfusion hc),
        if_neg (by rw [h]; exact fun hc => Option.noConfusion hc), h]

theorem blacklist_strategy_superset_witness :
    get_blacklisted_objects { sfDefault with api_type := some "BULK" } =
      .ok (set_union (set_union UNSUPPORTED_BULK_API_SALESFORCE_OBJECTS
        QUERY_RESTRICTED_SALESFORCE_OBJECTS) QUERY_INCOMPATIBLE_SALESFORCE_OBJECTS)
  ∧ get_blacklisted_objects { sfDefault with api_type := some "REST" } =
      .ok (set_union QUERY_RESTRICTED_SALESFORCE_OBJECTS
        QUERY_INCOMPATIBLE_SALESFORCE_OBJECTS)
  ∧ get_blacklisted_objects { sfDefault with api_type := some "SOAP" } =
      .error (.configError (some "SOAP"))
  ∧ get_blacklisted_fields { sfDefault with api_type := some "SOAP" } =
      .error (.configError (some "SOAP")) := by
  obtain ⟨h1, h2, -, -, h5, -⟩ := blacklist_strategy_superset
  exact ⟨h1 _ (Or.inl rfl), h2 _ rfl,
    (h5 _ "SOAP" rfl (by decide) (by decide) (by decide)).1,
    (h5 _ "SOAP" rfl (by decide) (by decide) (by decide)).2⟩
